import Mathlib

/-!
Verification of the external-engine provider client (src/example-client.py)
against its natural-language specification.

The Python source is shallowly embedded: the engine subprocess's standard
output is modelled as a finite list of raw lines (each element is one result
of readline; the end of the list models the stream being closed, where
readline returns the empty string), exceptions are modelled by an error type,
and the infinite serving loop is run over a finite environment of poll events.
-/

/-- Exceptions that the client's code can raise in the modelled fragment. -/
inductive PyError where
  | eofError
  | attributeError (attrName : String)
  | connectionError
deriving DecidableEq, Repr

/-- Python whitespace characters recognised by str.rstrip() for the ASCII
range used by the engine protocol. -/
def pyIsSpace (c : Char) : Bool :=
  c = ' ' || c = '\t' || c = '\n' || c = '\r' || c = '\x0b' || c = '\x0c'

/-- Python str.rstrip(): remove trailing whitespace. -/
def rstrip (s : String) : String :=
  ⟨(s.data.reverse.dropWhile pyIsSpace).reverse⟩

/-- Python s.split(None, 1) restricted to what recv_uci needs: the first
whitespace-delimited token of s and the remainder after the separating
whitespace run (the empty string when s has at most one token). -/
def splitFirstToken (s : String) : String × String :=
  let cs := s.data.dropWhile pyIsSpace
  let tok := cs.takeWhile (fun c => ¬ pyIsSpace c)
  let rest := (cs.dropWhile (fun c => ¬ pyIsSpace c)).dropWhile pyIsSpace
  (⟨tok⟩, ⟨rest⟩)

/-- Python line.startswith(p): p is a prefix of the line's characters. -/
def pyStartsWith (s p : String) : Bool :=
  p.data.isPrefixOf s.data

/-- UTF-8 encoding of one character (the bytes as naturals). -/
def utf8Bytes (c : Char) : List Nat :=
  let n := c.toNat
  if n < 0x80 then [n]
  else if n < 0x800 then [0xC0 + n / 0x40, 0x80 + n % 0x40]
  else if n < 0x10000 then [0xE0 + n / 0x1000, 0x80 + n / 0x40 % 0x40, 0x80 + n % 0x40]
  else [0xF0 + n / 0x40000, 0x80 + n / 0x1000 % 0x40, 0x80 + n / 0x40 % 0x40, 0x80 + n % 0x40]

/-- Python line.encode("utf-8"): the byte sequence of a line. -/
def encodeUtf8 (s : String) : List Nat :=
  s.data.flatMap utf8Bytes

namespace Engine

/-- Attributes defined on the Engine class (its methods and the process
field set in the constructor, src/example-client.py lines 69-121).  A Python
attribute lookup on an Engine instance succeeds exactly for these names;
any other name raises AttributeError. -/
def attrNames : List String :=
  ["process", "send", "recv", "recv_uci", "uci", "isready", "analyse"]

/-- Whether an attribute lookup on an Engine instance succeeds. -/
def hasAttr (attrName : String) : Bool :=
  Engine.attrNames.contains attrName

/-- Engine.recv (lines 78-87): repeatedly readline from the subprocess's
stdout; a readline result of the empty string (the stream is closed) raises
EOFError; otherwise the line is rstripped and, if blank, silently skipped by
reading again; the first non-blank stripped line is returned together with
the unconsumed remainder of the stream. -/
def recv : List String → Except PyError (String × List String)
  | [] => .error .eofError
  | raw :: rest =>
    if raw = "" then .error .eofError
    else
      let line := rstrip raw
      if line = "" then recv rest
      else .ok (line, rest)

/-- Engine.recv_uci (lines 89-94): recv one line and split it into the
leading command token and the argument remainder (empty when absent). -/
def recv_uci (stream : List String) : Except PyError ((String × String) × List String) :=
  match recv stream with
  | .error e => .error e
  | .ok (line, rest) => .ok (splitFirstToken line, rest)

theorem recv_error_eof : ∀ (stream : List String) (e : PyError),
    recv stream = .error e → e = .eofError := by
  intro stream
  induction stream with
  | nil => intro e h; simp [recv] at h; exact h.symm
  | cons raw rest ih =>
    intro e h
    rw [recv] at h
    by_cases hraw : raw = ""
    · rw [if_pos hraw] at h
      exact (Except.error.inj h).symm
    · simp only [if_neg hraw] at h
      by_cases hblank : rstrip raw = ""
      · rw [if_pos hblank] at h; exact ih e h
      · rw [if_neg hblank] at h; exact absurd h (by simp)

/-- Characterisation of a successful recv: the stream decomposes as a block
of skipped lines (non-empty raw lines that are blank after stripping),
followed by the raw line whose stripped form is returned, followed by the
returned remainder; the returned line is non-blank. -/
theorem recv_ok_spec : ∀ (stream : List String) (s : String) (rest : List String),
    recv stream = .ok (s, rest) →
    s ≠ "" ∧ ∃ pre raw, stream = pre ++ raw :: rest ∧ raw ≠ "" ∧ s = rstrip raw ∧
      (∀ x ∈ pre, x ≠ "" ∧ rstrip x = "") := by
  intro stream
  induction stream with
  | nil => intro s rest h; simp [recv] at h
  | cons raw₀ rest₀ ih =>
    intro s rest h
    rw [recv] at h
    by_cases hraw : raw₀ = ""
    · simp [hraw] at h
    · simp only [if_neg hraw] at h
      by_cases hblank : rstrip raw₀ = ""
      · rw [if_pos hblank] at h
        obtain ⟨hs, pre, raw, hdec, hre, hstrip, hpre⟩ := ih s rest h
        refine ⟨hs, raw₀ :: pre, raw, by simp [hdec], hre, hstrip, ?_⟩
        intro x hx
        rcases List.mem_cons.mp hx with hx | hx
        · exact hx ▸ ⟨hraw, hblank⟩
        · exact hpre x hx
      · rw [if_neg hblank] at h
        simp only [Except.ok.injEq, Prod.mk.injEq] at h
        obtain ⟨hs, hrest⟩ := h
        exact ⟨hs ▸ hblank, [], raw₀, by simp [hrest], hraw, hs.symm, by simp⟩

theorem recv_rest_lt : ∀ (stream : List String) (s : String) (rest : List String),
    recv stream = .ok (s, rest) → rest.length < stream.length := by
  intro stream s rest h
  obtain ⟨-, pre, raw, hdec, -⟩ := recv_ok_spec stream s rest h
  subst hdec
  simp
  omega

theorem recv_uci_rest_lt (stream : List String) (ca : String × String) (rest : List String)
    (h : recv_uci stream = .ok (ca, rest)) : rest.length < stream.length := by
  rw [recv_uci] at h
  cases hr : recv stream with
  | error e => rw [hr] at h; exact absurd h (by simp)
  | ok p =>
    rw [hr] at h
    simp only [Except.ok.injEq, Prod.mk.injEq] at h
    exact h.2 ▸ recv_rest_lt stream p.1 p.2 (by rw [hr])

/-- The loop of Engine.uci (lines 98-101): recv_uci lines, discarding each,
until the first whose command token is uciok. Returns the unconsumed
stream. Written with recv's readline/blank-skip steps inlined so that the
recursion is structural on the stream; uciLoop_eq proves it satisfies the
source loop's recv_uci-based unfolding. -/
def uciLoop : List String → Except PyError (List String)
  | [] => .error .eofError
  | raw :: rest =>
    if raw = "" then .error .eofError
    else
      let line := rstrip raw
      if line = "" then uciLoop rest
      else if (splitFirstToken line).1 = "uciok" then .ok rest
      else uciLoop rest

theorem uciLoop_eq (stream : List String) :
    uciLoop stream =
      match recv_uci stream with
      | .error e => .error e
      | .ok (ca, rest) => if ca.1 = "uciok" then .ok rest else uciLoop rest := by
  induction stream with
  | nil => simp [uciLoop, recv_uci, recv]
  | cons raw rest ih =>
    by_cases hraw : raw = ""
    · simp [uciLoop, recv_uci, recv, hraw]
    · by_cases hblank : rstrip raw = ""
      · rw [show uciLoop (raw :: rest) = uciLoop rest by simp [uciLoop, hraw, hblank], ih]
        have : recv_uci (raw :: rest) = recv_uci rest := by
          simp [recv_uci, recv, hraw, hblank]
        rw [this]
      · simp [uciLoop, recv_uci, recv, hraw, hblank]

/-- Engine.uci (lines 96-101): send the identification command uci, then
drain lines until the completion token uciok arrives. The uci command write
itself always succeeds in this model (stdin is open); the interesting
behaviour is the read loop. -/
def uciRun (stream : List String) : Except PyError (List String) :=
  uciLoop stream

end Engine

/-- The work payload of a broker job (the work field of the job JSON,
lines 110-115): parallelism width, starting position, move list. The job
JSON may carry further fields the client never reads; depth models such an
extra field (no code under analyse reads it). -/
structure Work where
  multiPv : Nat
  initialFen : String
  moves : List String
  depth : Option Nat
deriving DecidableEq, Repr

/-- A broker job: an identifier and a work payload (lines 61-64, 110-111). -/
structure Job where
  id : String
  work : Work
deriving DecidableEq, Repr

/-- The option-set command of line 112. -/
def setoptionCommand (w : Work) : String :=
  "setoption name MultiPV value " ++ toString w.multiPv

/-- The position-set command of line 114. -/
def positionCommand (w : Work) : String :=
  "position fen " ++ w.initialFen ++ " moves " ++ String.intercalate " " w.moves

/-- The search-start command of line 115 (a literal with no interpolation). -/
def goCommand : String :=
  "go depth 25"

/-- The trace of running the analyse generator to completion: the commands
written to the engine's stdin, the byte chunks yielded, and the generator's
final outcome (none models normal termination via break / StopIteration;
some e models an exception e raised out of the generator). -/
structure GenRun where
  sent : List String
  chunks : List (List Nat)
  result : Option PyError
deriving DecidableEq, Repr

namespace Engine

/-- The yield loop of Engine.analyse (lines 116-121): recv a line, yield its
UTF-8 encoding, and stop after the first line that begins with bestmove; an
EOFError from recv propagates out of the generator. Returns the yielded
chunks and the loop's outcome. Written with recv's readline/blank-skip
steps inlined so that the recursion is structural on the stream;
analyseLoop_eq proves it satisfies the source loop's recv-based
unfolding. -/
def analyseLoop : List String → List (List Nat) × Option PyError
  | [] => ([], some .eofError)
  | raw :: rest =>
    if raw = "" then ([], some .eofError)
    else
      let line := rstrip raw
      if line = "" then analyseLoop rest
      else if pyStartsWith line "bestmove" then ([encodeUtf8 line], none)
      else
        let (cs, r) := analyseLoop rest
        (encodeUtf8 line :: cs, r)

theorem analyseLoop_eq (stream : List String) :
    analyseLoop stream =
      match recv stream with
      | .error e => ([], some e)
      | .ok (line, rest) =>
        if pyStartsWith line "bestmove" then ([encodeUtf8 line], none)
        else
          let (cs, r) := analyseLoop rest
          (encodeUtf8 line :: cs, r) := by
  induction stream with
  | nil => simp [analyseLoop, recv]
  | cons raw rest ih =>
    by_cases hraw : raw = ""
    · simp [analyseLoop, recv, hraw]
    · by_cases hblank : rstrip raw = ""
      · rw [show analyseLoop (raw :: rest) = analyseLoop rest by
              simp [analyseLoop, hraw, hblank], ih]
        have : recv (raw :: rest) = recv rest := by simp [recv, hraw, hblank]
        rw [this]
      · simp [analyseLoop, recv, hraw, hblank]

/-- Lines 114-121 of Engine.analyse: the part of the generator body after the
readyok call site — send the position-set and search-start commands, then run
the yield loop. sentSoFar holds the commands the generator sent earlier. -/
def analyseAfterReady (job : Job) (stream : List String) (sentSoFar : List String) : GenRun :=
  let (chunks, outcome) := analyseLoop stream
  { sent := sentSoFar ++ [positionCommand job.work, goCommand]
    chunks := chunks
    result := outcome }

/-- Engine.analyse (lines 110-121), as the trace of consuming the returned
generator (no statement of the body runs before the first element is
requested). The body sends the option-set command, then evaluates
self.readyok() — an attribute lookup on the Engine instance. The class
defines no attribute readyok (see attrNames), so the lookup raises
AttributeError there; the branch in which the attribute would exist — its
call followed by lines 114-121 — is unreachable. -/
def analyseRun (job : Job) (stream : List String) : GenRun :=
  let cmd1 := setoptionCommand job.work
  if hasAttr "readyok" then
    analyseAfterReady job stream [cmd1]
  else
    { sent := [cmd1], chunks := [], result := some (.attributeError "readyok") }

/-- Engine.isready (lines 103-108): its first statement is
self.command("isready"), an attribute lookup that fails because the Engine
class defines no attribute command (see attrNames), so the method raises
AttributeError before writing any command or reading any line (lines
105-108, the drain-until-readyok loop, are unreachable). Returns the
commands sent and the outcome. -/
def isreadyRun (_stream : List String) : List String × Option PyError :=
  ([], some (.attributeError "command"))

end Engine

/-- An HTTP response to the work poll (lines 57-61): its status code, and
the job its JSON body decodes to. The body is only ever parsed (res.json(),
line 61) when the status code is 200, so carrying the decoded job for every
response loses nothing. -/
structure WorkResponse where
  statusCode : Nat
  body : Job
deriving DecidableEq, Repr

/-- The helper ok (lines 13-18): raise_for_status's HTTPError on a failure
status is caught and logged (via the response body); the response is
returned unchanged in every case, so no status code raises out of ok. -/
def ok (res : WorkResponse) : WorkResponse :=
  res

/-- Behaviour of the broker connection during one result-streaming POST
(line 64): either it stays up for the whole request, or it drops after n
chunks of the body have been pulled from the generator and relayed
(dropAfter 0 models a drop before the body is iterated at all). -/
inductive Transport where
  | stays
  | dropAfter (n : Nat)
deriving DecidableEq, Repr

/-- Outcome of http.post(..., data=gen) for a generator with run trace gen:
requests iterates the body and streams each chunk. If the transport drops
while chunks remain to be pulled, the post raises ConnectionError; if the
generator raises first (its exception fires when the next element is pulled,
before any later transport failure), that exception propagates out of the
post; a drop after the body is exhausted still surfaces as ConnectionError
when the request is completed. Returns the post's outcome (none = returned
normally) and the commands the generator wrote to the engine (all of
analyse's writes happen on the first pull, so none are written when the
drop precedes the first pull). -/
def streamPost (gen : GenRun) : Transport → Option PyError × List String
  | .stays => (gen.result, gen.sent)
  | .dropAfter n =>
    if n ≤ gen.chunks.length then
      (some .connectionError, if n = 0 then [] else gen.sent)
    else (gen.result, gen.sent)

/-- What one iteration of the serving loop (lines 56-66) does. -/
inductive IterResult where
  | repolled
  | delivered (id : String)
  | abandoned (id : String)
  | crashed (e : PyError)
deriving DecidableEq, Repr

/-- One iteration of the while True loop (lines 56-66): poll for work; on a
status other than 200, continue — re-poll without touching the engine. On
200, parse the job and stream engine.analyse(job) to the broker; a
ConnectionError raised by the streaming post is caught and logged (job
abandoned, loop continues); any other exception propagates and ends the
loop. Returns the iteration's result and the engine commands sent during
it. -/
def loopIter (res : WorkResponse) (stream : List String) (t : Transport) :
    IterResult × List String :=
  if (ok res).statusCode ≠ 200 then (.repolled, [])
  else
    let job := (ok res).body
    let gen := Engine.analyseRun job stream
    match streamPost gen t with
    | (none, sent) => (.delivered job.id, sent)
    | (some .connectionError, sent) => (.abandoned job.id, sent)
    | (some e, sent) => (.crashed e, sent)

/-- The environment of one loop iteration: the poll's response, the engine
output lines available during the job's search, and the broker-connection
behaviour during result streaming. -/
structure PollEvent where
  response : WorkResponse
  engineOut : List String
  transport : Transport
deriving DecidableEq, Repr

/-- The while True loop (lines 55-66) run over a finite environment of poll
events: each event produces one iteration; an uncaught exception ends the
loop (and the process), every other result lets it continue. -/
def serveLoop : List PollEvent → List IterResult
  | [] => []
  | ev :: rest =>
    match loopIter ev.response ev.engineOut ev.transport with
    | (.crashed e, _) => [.crashed e]
    | (r, _) => r :: serveLoop rest

/-- The function main (lines 47-66): perform the uci handshake once; if it
raises, the exception propagates and the serving loop is never entered
(registration, out of scope per the spec, is modelled as succeeding).
Otherwise serve jobs over the given poll events. handshake is the engine's
output during the uci exchange. -/
def mainRun (handshake : List String) (polls : List PollEvent) :
    Except PyError (List IterResult) :=
  match Engine.uciRun handshake with
  | .error e => .error e
  | .ok _ => .ok (serveLoop polls)

theorem uciLoop_eof : ∀ (stream : List String),
    (∀ raw ∈ stream, (splitFirstToken (rstrip raw)).1 ≠ "uciok") →
    Engine.uciLoop stream = .error .eofError := by
  intro stream
  induction stream with
  | nil => intro _; rfl
  | cons raw rest ih =>
    intro h
    have hnot := h raw (List.mem_cons_self raw rest)
    have htail : ∀ x ∈ rest, (splitFirstToken (rstrip x)).1 ≠ "uciok" :=
      fun x hx => h x (List.mem_cons_of_mem raw hx)
    by_cases hraw : raw = ""
    · simp [Engine.uciLoop, hraw]
    · by_cases hblank : rstrip raw = ""
      · simpa [Engine.uciLoop, hraw, hblank] using ih htail
      · simpa [Engine.uciLoop, hraw, hblank, hnot] using ih htail

/-- C3: for every job, consuming the generator returned by Engine.analyse
raises AttributeError at its first requested element: after sending the
option-set command the body evaluates self.readyok(), an attribute the
Engine class does not define, so the position-set and search-start commands
are never sent; likewise Engine.isready always raises AttributeError because
it calls self.command, which the Engine class does not define. -/
theorem analyse_and_isready_raise_attribute_error (job : Job) (stream : List String) :
    Engine.hasAttr "readyok" = false ∧
    Engine.analyseRun job stream =
      { sent := [setoptionCommand job.work], chunks := [],
        result := some (.attributeError "readyok") } ∧
    Engine.hasAttr "command" = false ∧
    Engine.isreadyRun stream = ([], some (.attributeError "command")) :=
  ⟨rfl, rfl, rfl, rfl⟩

/-- C1: the claim fails on the code. For every job and every engine output
stream — including the exhibited one, which contains a line beginning with
bestmove — the lazy sequence produced by Engine.analyse yields no chunk at
all: it raises AttributeError (no attribute readyok) at its first requested
element, instead of yielding every line up to and including the bestmove
line as claimed. -/
theorem analyse_generator_yields_no_line :
    (∀ (job : Job) (stream : List String),
      (Engine.analyseRun job stream).chunks = [] ∧
      (Engine.analyseRun job stream).result = some (.attributeError "readyok")) ∧
    (∃ l ∈ (["info depth 1 seldepth 1 score cp 20\n",
             "bestmove e2e4 ponder e7e5\n"] : List String),
      pyStartsWith (rstrip l) "bestmove" = true) ∧
    Engine.analyseRun
      { id := "1",
        work := { multiPv := 1, initialFen := "startpos", moves := ["e2e4"], depth := none } }
      ["info depth 1 seldepth 1 score cp 20\n", "bestmove e2e4 ponder e7e5\n"] =
      { sent := ["setoption name MultiPV value 1"], chunks := [],
        result := some (.attributeError "readyok") } :=
  ⟨fun _ _ => ⟨rfl, rfl⟩, by decide, by decide⟩

/-- C2: the claim fails on the code. For the concrete job
id 1, work (multiPv 1, initialFen startpos, moves [e2e4]), running the
analyse generator sends only the option-set command and then raises
AttributeError, relaying no chunk — not the claimed three commands and two
chunks. The second conjunct shows that the code after the failing call
site (lines 114-121) would have produced exactly the claimed commands and
the two claimed chunks, ending after the bestmove line. -/
theorem example_job_trace :
    Engine.analyseRun
      { id := "1",
        work := { multiPv := 1, initialFen := "startpos", moves := ["e2e4"], depth := none } }
      ["info depth 1\n", "bestmove e2e4 ponder e7e5\n"] =
      { sent := ["setoption name MultiPV value 1"], chunks := [],
        result := some (.attributeError "readyok") } ∧
    Engine.analyseAfterReady
      { id := "1",
        work := { multiPv := 1, initialFen := "startpos", moves := ["e2e4"], depth := none } }
      ["info depth 1\n", "bestmove e2e4 ponder e7e5\n"]
      ["setoption name MultiPV value 1"] =
      { sent := ["setoption name MultiPV value 1", "position fen startpos moves e2e4",
                 "go depth 25"],
        chunks := [encodeUtf8 "info depth 1", encodeUtf8 "bestmove e2e4 ponder e7e5"],
        result := none } :=
  ⟨by decide, by decide⟩

/-- C7: the search path never calls the adapter's readiness-check operation
before issuing the option-set command: the adapter does define the
readiness-check attribute isready, yet the only command the analyse run ever
writes is the option-set command — in particular no isready command is sent
before it (or at all). -/
theorem no_readiness_check_before_option_set (job : Job) (stream : List String) :
    Engine.hasAttr "isready" = true ∧
    (Engine.analyseRun job stream).sent = [setoptionCommand job.work] ∧
    "isready" ∉ (Engine.analyseRun job stream).sent := by
  refine ⟨rfl, rfl, ?_⟩
  intro hmem
  have hsent : (Engine.analyseRun job stream).sent = [setoptionCommand job.work] := rfl
  rw [hsent, List.mem_singleton] at hmem
  have hlen := congrArg String.length hmem.symm
  rw [setoptionCommand, String.length_append] at hlen
  have h29 : ("setoption name MultiPV value " : String).length = 29 := rfl
  have h7 : ("isready" : String).length = 7 := rfl
  omega

/-- C9: Engine.recv never returns an empty or blank line: a successful recv
returns the rstripped form of the first raw line that is non-blank after
stripping, every earlier raw line having been a non-empty line that is blank
after stripping (silently skipped); and a readline result of the empty
string — the stream is closed — raises EOFError instead of returning. -/
theorem recv_returns_first_nonblank_line :
    (∀ (stream : List String) (s : String) (rest : List String),
      Engine.recv stream = .ok (s, rest) →
      s ≠ "" ∧ ∃ pre raw, stream = pre ++ raw :: rest ∧ raw ≠ "" ∧ s = rstrip raw ∧
        (∀ x ∈ pre, x ≠ "" ∧ rstrip x = "")) ∧
    (∀ rest : List String, Engine.recv ("" :: rest) = .error .eofError) ∧
    Engine.recv [] = .error .eofError :=
  ⟨Engine.recv_ok_spec, fun _ => rfl, rfl⟩

theorem recv_returns_first_nonblank_line_witness :
    ("info string hello" : String) ≠ "" ∧ ∃ pre raw,
      (["\n", "info string hello  \n", "bestmove e2e4\n"] : List String) =
        pre ++ raw :: ["bestmove e2e4\n"] ∧
      raw ≠ "" ∧ ("info string hello" : String) = rstrip raw ∧
      (∀ x ∈ pre, x ≠ "" ∧ rstrip x = "") :=
  recv_returns_first_nonblank_line.1 ["\n", "info string hello  \n", "bestmove e2e4\n"]
    "info string hello" ["bestmove e2e4\n"] rfl

/-- C10: the position-set command is built exactly as the concatenation of
the literal position fen, the job's starting position, the literal moves
keyword, and the move list joined by single spaces; with an empty move list
the command still ends with the bare moves keyword followed by nothing. -/
theorem position_command_built_by_concatenation (w : Work) :
    positionCommand w =
      "position fen " ++ w.initialFen ++ " moves " ++ String.intercalate " " w.moves ∧
    (w.moves = [] →
      positionCommand w = ("position fen " ++ w.initialFen) ++ " moves ") := by
  refine ⟨rfl, ?_⟩
  intro h
  rw [positionCommand, h]
  rw [show String.intercalate " " ([] : List String) = "" from rfl]
  exact String.append_empty _

theorem position_command_built_by_concatenation_witness :
    positionCommand { multiPv := 1, initialFen := "startpos", moves := [], depth := none } =
      ("position fen " ++ "startpos") ++ " moves " :=
  (position_command_built_by_concatenation
    { multiPv := 1, initialFen := "startpos", moves := [], depth := none }).2 rfl

/-- C4: if the subprocess closes its standard output before the
handshake-completion token uciok appears (no line of the finite output has
uciok as its command token), Engine.uci fails with EOFError and main's work
loop is never entered: mainRun propagates the error and serves no poll
event, whatever jobs were queued. -/
theorem handshake_eof_never_serves (handshake : List String) (polls : List PollEvent)
    (h : ∀ raw ∈ handshake, (splitFirstToken (rstrip raw)).1 ≠ "uciok") :
    mainRun handshake polls = .error .eofError := by
  unfold mainRun Engine.uciRun
  rw [uciLoop_eof handshake h]

theorem handshake_eof_never_serves_witness :
    mainRun ["id name Example\n", "option name MultiPV type spin\n"]
      [⟨⟨200, ⟨"1", ⟨1, "startpos", [], none⟩⟩⟩, [], .stays⟩] = .error .eofError :=
  handshake_eof_never_serves ["id name Example\n", "option name MultiPV type spin\n"] _
    (by decide)

/-- C5: for every poll response whose status code is not 200 — including
HTTP failure statuses, which the helper ok logs and returns rather than
raising — the loop iteration dispatches nothing: it sends no engine command,
results in an immediate re-poll, and the serving loop goes straight on to
the next poll event. -/
theorem non_assignment_poll_skips_dispatch (res : WorkResponse) (stream : List String)
    (t : Transport) (rest : List PollEvent) (h : res.statusCode ≠ 200) :
    ok res = res ∧
    loopIter res stream t = (.repolled, []) ∧
    serveLoop ({ response := res, engineOut := stream, transport := t } :: rest) =
      .repolled :: serveLoop rest := by
  have h1 : loopIter res stream t = (.repolled, []) := by
    unfold loopIter
    rw [if_pos]
    exact h
  exact ⟨rfl, h1, by simp [serveLoop, h1]⟩

theorem non_assignment_poll_skips_dispatch_witness :
    ok ⟨503, ⟨"9", ⟨2, "startpos", ["e2e4"], none⟩⟩⟩ =
      (⟨503, ⟨"9", ⟨2, "startpos", ["e2e4"], none⟩⟩⟩ : WorkResponse) ∧
    loopIter ⟨503, ⟨"9", ⟨2, "startpos", ["e2e4"], none⟩⟩⟩ ["bestmove e2e4\n"] .stays =
      (.repolled, []) ∧
    serveLoop [⟨⟨503, ⟨"9", ⟨2, "startpos", ["e2e4"], none⟩⟩⟩, ["bestmove e2e4\n"], .stays⟩] =
      .repolled :: serveLoop [] :=
  non_assignment_poll_skips_dispatch _ _ _ _ (by decide)

/-- C6: if the broker connection drops while a job's result is being
streamed (the POST raises ConnectionError), the loop does not crash and does
not escalate: the iteration catches the exception, the job's delivery is
abandoned (logged), and the serving loop proceeds to poll for the next
event. -/
theorem mid_stream_disconnect_continues_loop (res : WorkResponse) (stream : List String)
    (t : Transport) (rest : List PollEvent) (h200 : res.statusCode = 200)
    (hdrop : (streamPost (Engine.analyseRun res.body stream) t).1 = some .connectionError) :
    loopIter res stream t =
      (.abandoned res.body.id, (streamPost (Engine.analyseRun res.body stream) t).2) ∧
    serveLoop ({ response := res, engineOut := stream, transport := t } :: rest) =
      .abandoned res.body.id :: serveLoop rest := by
  have h1 : loopIter res stream t =
      (.abandoned res.body.id, (streamPost (Engine.analyseRun res.body stream) t).2) := by
    unfold loopIter
    rw [if_neg (by simp [ok, h200])]
    rcases hsp : streamPost (Engine.analyseRun res.body stream) t with ⟨o, sent⟩
    rw [hsp] at hdrop
    simp only at hdrop
    subst hdrop
    simp [ok, hsp]
  exact ⟨h1, by simp [serveLoop, h1]⟩

theorem mid_stream_disconnect_continues_loop_witness :
    loopIter ⟨200, ⟨"7", ⟨1, "startpos", [], none⟩⟩⟩ ["bestmove e2e4\n"] (.dropAfter 0) =
      (.abandoned "7",
        (streamPost (Engine.analyseRun ⟨"7", ⟨1, "startpos", [], none⟩⟩ ["bestmove e2e4\n"])
          (.dropAfter 0)).2) ∧
    serveLoop [⟨⟨200, ⟨"7", ⟨1, "startpos", [], none⟩⟩⟩, ["bestmove e2e4\n"], .dropAfter 0⟩] =
      .abandoned "7" :: serveLoop [] :=
  mid_stream_disconnect_continues_loop _ _ _ _ rfl (by decide)

/-- C8: the search-start command is the fixed literal go depth 25; no depth
field of the job influences any of the engine commands: two jobs whose work
payloads agree on the three fields the code reads (and so may differ in the
unread depth field) give rise to identical option-set, position-set and
search-start commands — the search-start command being the last one sent —
and to identical generator traces. -/
theorem search_commands_ignore_depth (j₁ j₂ : Job) (stream sentSoFar : List String)
    (hpv : j₁.work.multiPv = j₂.work.multiPv)
    (hfen : j₁.work.initialFen = j₂.work.initialFen)
    (hmoves : j₁.work.moves = j₂.work.moves) :
    goCommand = "go depth 25" ∧
    (Engine.analyseAfterReady j₁ stream sentSoFar).sent.getLast? = some goCommand ∧
    (Engine.analyseAfterReady j₁ stream sentSoFar).sent =
      (Engine.analyseAfterReady j₂ stream sentSoFar).sent ∧
    Engine.analyseRun j₁ stream = Engine.analyseRun j₂ stream := by
  rcases hl : Engine.analyseLoop stream with ⟨cs, r⟩
  have hsent : ∀ j : Job, (Engine.analyseAfterReady j stream sentSoFar).sent =
      sentSoFar ++ [positionCommand j.work, goCommand] := by
    intro j
    simp [Engine.analyseAfterReady, hl]
  have hrun : ∀ j : Job, Engine.analyseRun j stream =
      { sent := [setoptionCommand j.work], chunks := [],
        result := some (.attributeError "readyok") } := fun _ => rfl
  refine ⟨rfl, ?_, ?_, ?_⟩
  · rw [hsent j₁]
    simp
  · rw [hsent j₁, hsent j₂, positionCommand, positionCommand, hfen, hmoves]
  · rw [hrun j₁, hrun j₂, setoptionCommand, setoptionCommand, hpv]

theorem search_commands_ignore_depth_witness :
    goCommand = "go depth 25" ∧
    (Engine.analyseAfterReady ⟨"1", ⟨1, "startpos", ["e2e4"], none⟩⟩ ["bestmove e2e4\n"]
      ["setoption name MultiPV value 1"]).sent.getLast? = some goCommand ∧
    (Engine.analyseAfterReady ⟨"1", ⟨1, "startpos", ["e2e4"], none⟩⟩ ["bestmove e2e4\n"]
      ["setoption name MultiPV value 1"]).sent =
      (Engine.analyseAfterReady ⟨"1", ⟨1, "startpos", ["e2e4"], some 3⟩⟩ ["bestmove e2e4\n"]
        ["setoption name MultiPV value 1"]).sent ∧
    Engine.analyseRun ⟨"1", ⟨1, "startpos", ["e2e4"], none⟩⟩ ["bestmove e2e4\n"] =
      Engine.analyseRun ⟨"1", ⟨1, "startpos", ["e2e4"], some 3⟩⟩ ["bestmove e2e4\n"] :=
  search_commands_ignore_depth _ _ _ _ rfl rfl rfl
